import Mathlib

/-!
Verification of the key-event / layer-resolution core of `kaleidoscope-rs`,
a Rust port of the Kaleidoscope keyboard firmware targeting the Keyboardio
Atreus (ATmega32U4).

The definitions below are a shallow embedding of the sources under `src/`:

* `src/keyswitch_state.rs`  — `KeyswitchState` bitfield predicates
* `src/key_event.rs`        — `KeyEvent::next` and the process-wide i8 id counter
* `src/layers.rs`           — `Layer` stack operations and keymap resolution
* `src/live_keys.rs`        — the `LiveKeys` state array
* `src/runtime.rs`          — the event pipeline and HID report assembly
* `src/driver/keyscanner/atmega.rs` — the per-row `debounce` filter

Machine integers are embedded as `Nat` (with explicit masks where u8/u16
wrap matters) or as `Int` for the signed i8 event id.  Rust code paths that
panic (index out of bounds, usize subtraction overflow, `copy_within` with
a reversed range) are embedded as `Option`-returning functions where `none`
marks the panic.

Two crates of the repository are not present under `src/`:
`kaleidoscope_internal` (the `Key`, `KeyAddr` and `key_defs` definitions)
and the `hooks` module (only declared in `lib.rs`).  Everything taken from
them is modelled from the specification and carries a doc comment saying
so; all remaining definitions are transcribed from the Rust sources.
-/

set_option maxRecDepth 4000

namespace Kaleidoscope

/-! ## Key values and flags (external `kaleidoscope_internal::key_defs`) -/

/-- Modelled from the spec: missing crate `kaleidoscope_internal::key_defs`.
A `Key` is "a 16-bit symbolic value" whose low byte is the keycode and whose
high byte is "an auxiliary flag set (shift/ctrl/left-alt/right-alt/gui held
bits)" (spec section 3).  Only the raw 16-bit value is stored; accessors
below recover the keycode and flag byte. -/
structure Key where
  raw : Nat
  deriving DecidableEq, Repr

/-- Modelled from the spec: keycode accessor, the low byte of the raw value. -/
def Key.key_code (k : Key) : Nat := k.raw % 256

/-- Modelled from the spec: flag byte accessor, the high byte of the raw value. -/
def Key.flags (k : Key) : Nat := k.raw / 256 % 256

/-- Modelled from the spec: replace the flag byte, keeping the keycode. -/
def Key.set_flags (k : Key) (f : Nat) : Key := ⟨f % 256 * 256 + k.key_code⟩

/-- Modelled from the spec: build a `Key` from a raw 16-bit value. -/
def Key.from_raw (r : Nat) : Key := ⟨r % 65536⟩

/-- Modelled from the spec: "shift/ctrl/left-alt/right-alt/gui held bits" of
the flag byte, plus the synthetic/reserved category bits that carve the
16-bit key space into the disjoint ranges of spec section 3.  Numeric values
follow the upstream firmware the spec describes; the theorems below use only
the (in)equalities between these constants. -/
def SHIFT_HELD : Nat := 1

/-- Modelled from the spec: ctrl-held flag bit. -/
def CTRL_HELD : Nat := 2

/-- Modelled from the spec: left-alt-held flag bit. -/
def LALT_HELD : Nat := 4

/-- Modelled from the spec: right-alt-held flag bit. -/
def RALT_HELD : Nat := 8

/-- Modelled from the spec: gui-held flag bit. -/
def GUI_HELD : Nat := 16

/-- Modelled from the spec: flag bit marking synthetic (non plain-keyboard)
key ranges. -/
def SYNTHETIC : Nat := 64

/-- Modelled from the spec: flag bit reserved for plugin key ranges. -/
def RESERVED : Nat := 128

/-- Modelled from the spec: synthetic sub-category bit for system-control keys. -/
def IS_SYSCTL : Nat := 1

/-- Modelled from the spec: synthetic sub-category bit for internal keys. -/
def IS_INTERNAL : Nat := 2

/-- Modelled from the spec: synthetic sub-category bit for layer-change keys. -/
def SWITCH_TO_KEYMAP : Nat := 4

/-- Modelled from the spec: synthetic sub-category bit for consumer-control keys. -/
def IS_CONSUMER : Nat := 8

/-- Modelled from the spec: the `NoKey` sentinel (raw value 0). -/
def Key_NoKey : Key := ⟨0⟩

/-- Modelled from the spec: the `Transparent` sentinel, "a keymap entry meaning
fall through to the next lower active layer" (raw value 0xFFFF). -/
def Key_Transparent : Key := ⟨65535⟩

/-- Modelled from the spec: the `Inactive` LiveKeys sentinel.  It shares the
raw value of `Transparent`: `Runtime::lookup_key` treats a cleared LiveKeys
entry as "no live override" by comparing it against `Key_Transparent`
(src/runtime.rs lines 350-358), which only works because the two coincide. -/
def Key_Inactive : Key := Key_Transparent

/-- Modelled from the spec: the `Masked` LiveKeys sentinel ("pressed but
suppressed pending release"), sharing the raw value of `NoKey` as in the
upstream firmware. -/
def Key_Masked : Key := Key_NoKey

/-- Modelled from the spec: the `Undefined` sentinel carried by events whose
key has not been resolved yet; shares the raw value of `Transparent`. -/
def Key_Undefined : Key := Key_Transparent

/-- Modelled from the spec: HID keycode of the left-control modifier. -/
def Key_LeftControl : Key := ⟨224⟩

/-- Modelled from the spec: HID keycode of the left-shift modifier. -/
def Key_LeftShift : Key := ⟨225⟩

/-- Modelled from the spec: HID keycode of the left-alt modifier. -/
def Key_LeftAlt : Key := ⟨226⟩

/-- Modelled from the spec: HID keycode of the left-gui modifier. -/
def Key_LeftGui : Key := ⟨227⟩

/-- Modelled from the spec: HID keycode of the right-alt modifier. -/
def Key_RightAlt : Key := ⟨230⟩

/-- Modelled from the spec: a key is a plain keyboard key when neither the
reserved nor the synthetic category bit is set in its flag byte. -/
def Key.is_keyboard_key (k : Key) : Bool :=
  k.flags &&& (RESERVED ||| SYNTHETIC) == 0

/-- Modelled from the spec: keyboard modifiers are the keyboard keys with
keycodes in the dedicated HID modifier range 0xE0-0xE7. -/
def Key.is_keyboard_modifier (k : Key) : Bool :=
  k.is_keyboard_key && (224 ≤ k.key_code && k.key_code ≤ 231)

/-- Modelled from the spec: layer-change pseudo-keys carry exactly the
synthetic and switch-to-keymap bits. -/
def Key.is_layer_key (k : Key) : Bool :=
  k.flags == SYNTHETIC ||| SWITCH_TO_KEYMAP

/-- Modelled from the spec: mod-layer pseudo-keys (a modifier combined with a
layer shift) carry the synthetic, switch-to-keymap and internal bits. -/
def Key.is_mod_layer_key (k : Key) : Bool :=
  k.flags == SYNTHETIC ||| SWITCH_TO_KEYMAP ||| IS_INTERNAL

/-- Modelled from the spec: system-control keys carry the synthetic and
sysctl bits. -/
def Key.is_system_control_key (k : Key) : Bool :=
  k.flags == SYNTHETIC ||| IS_SYSCTL

/-- Modelled from the spec: consumer-control keys carry the synthetic and
consumer bits. -/
def Key.is_consumer_control_key (k : Key) : Bool :=
  k.flags == SYNTHETIC ||| IS_CONSUMER

/-- Modelled from the spec: layer numbers at or above this offset in a layer
key's keycode denote a momentary/shifted activation (value 42 as upstream). -/
def LAYER_SHIFT_OFFSET : Nat := 42

/-- Modelled from the spec: keycodes at or above this offset in a layer key
denote an absolute layer move (value 84 = 2 * 42 as upstream). -/
def LAYER_MOVE_OFFSET : Nat := 84

/-- Modelled from the spec: reserved "next keymap" pseudo-layer number. -/
def KEYMAP_NEXT : Nat := 253

/-- Modelled from the spec: reserved "previous keymap" pseudo-layer number. -/
def KEYMAP_PREVIOUS : Nat := 254

/-- Modelled from the spec: the `shift_to_layer` constructor for momentary
layer-shift keys used in `Layer::handle_layer_key_event`. -/
def shift_to_layer (n : Nat) : Key :=
  ⟨(SYNTHETIC ||| SWITCH_TO_KEYMAP) * 256 + (LAYER_SHIFT_OFFSET + n) % 256⟩

/-! ## Key addresses (external `kaleidoscope_internal::key_addr`) -/

/-- Modelled from the spec: a `KeyAddr` "identifies one physical key by a
flattened (row, column) index bounded by the device's matrix dimensions"
(spec section 3).  The Atreus matrix is 4 rows by 12 columns
(src/plugins/atreus.rs), giving 48 entries; `key_map.rs` sizes the LiveKeys
array by the same `KeyAddr::UPPER_LIMIT`. -/
structure KeyAddr where
  index : Nat
  deriving DecidableEq, Repr

/-- Modelled from the spec: one entry per key of the 4 x 12 Atreus matrix. -/
def KeyAddr.UPPER_LIMIT : Nat := 48

/-- Modelled from the spec: "has a validity predicate (some synthetic events
use an invalid/no-address sentinel)". -/
def KeyAddr.is_valid (a : KeyAddr) : Bool := a.index < KeyAddr.UPPER_LIMIT

/-- Modelled from the spec: the invalid "no address" sentinel used as the
default `KeyAddr`. -/
def KeyAddr.default : KeyAddr := ⟨255⟩

/-- Modelled from the spec: `KeyAddr::create(row, col)` flattens a (row,
column) pair over the 12-column Atreus matrix. -/
def KeyAddr.create (row col : Nat) : KeyAddr := ⟨row * 12 + col⟩

/-- Modelled from the spec: `KeyAddr::iter()` enumerates every valid address. -/
def KeyAddr.iter : List KeyAddr := (List.range KeyAddr.UPPER_LIMIT).map KeyAddr.mk

/-! ## Keyswitch state (src/keyswitch_state.rs) -/

/-- Embeds the `KeyswitchState` bitfield of src/keyswitch_state.rs: bit 0 is
`was_pressed`, bit 1 is `is_pressed`, bit 7 is `injected`; the record holds
the three named bits. -/
structure KeyswitchState where
  was_pressed : Bool
  is_pressed : Bool
  injected : Bool
  deriving DecidableEq, Repr

/-- Embeds `KeyswitchState::key_toggled_on` (src/keyswitch_state.rs): newly
pressed during this scan cycle. -/
def KeyswitchState.key_toggled_on (s : KeyswitchState) : Bool :=
  s.is_pressed && !s.was_pressed

/-- Embeds `KeyswitchState::key_toggled_off` (src/keyswitch_state.rs): newly
released during this scan cycle. -/
def KeyswitchState.key_toggled_off (s : KeyswitchState) : Bool :=
  s.was_pressed && !s.is_pressed

/-! ## Event handler results (src/event_handler.rs) -/

/-- Embeds the `EventHandlerError` enum of src/event_handler.rs. -/
inductive EventHandlerError where
  | EventConsumed
  | Abort
  | Error
  deriving DecidableEq, Repr

/-- Result type of a hook chain, as in src/event_handler.rs:
`Ok(())` means continue, `Err(e)` stops the chain. -/
abbrev EHResult := Except EventHandlerError Unit

/-! ## The per-row debouncer (src/driver/keyscanner/atmega.rs) -/

/-- Embeds the per-row debouncer state of `Atmega::debounce`
(src/driver/keyscanner/atmega.rs lines 173-193): three u16 bitmasks, one bit
per column; `db0`/`db1` are the two counter bitplanes and `debounced_state`
is the filtered sample. -/
structure Debouncer where
  db0 : Nat
  db1 : Nat
  debounced_state : Nat
  deriving DecidableEq, Repr

/-- Bitwise complement within u16, as Rust `!x` on a `u16`. -/
def notU16 (x : Nat) : Nat := x ^^^ 65535

/-- Embeds `Atmega::debounce` (src/driver/keyscanner/atmega.rs lines
173-193): one debounce evaluation of a raw row `sample`, returning the
updated debouncer state and the `changes` mask of columns whose debounced
state flipped this evaluation. -/
def debounce (d : Debouncer) (sample : Nat) : Debouncer × Nat :=
  let delta := sample ^^^ d.debounced_state
  let db1 := (d.db1 ^^^ d.db0) &&& delta
  let db0 := notU16 d.db0 &&& delta
  let changes := notU16 (notU16 delta ||| (db0 ||| db1))
  ({ db0 := db0, db1 := db1, debounced_state := d.debounced_state ^^^ changes }, changes)

/-- Iterates `debounce` on the same held raw sample. -/
def debounceN (sample : Nat) : Nat → Debouncer → Debouncer
  | 0, d => d
  | n + 1, d => debounceN sample n (debounce d sample).1

/-- Behaviour of one `debounce` evaluation on a single column bit:
state is (db0 bit, db1 bit, debounced bit), input is the raw sample bit,
output is the new state and the changes bit. -/
def bitStep (sample : Bool) : Bool × Bool × Bool → (Bool × Bool × Bool) × Bool :=
  fun s =>
    let delta := xor sample s.2.2
    let db1 := xor s.2.1 s.1 && delta
    let db0 := !s.1 && delta
    let changes := delta && !db0 && !db1
    ((db0, db1, xor s.2.2 changes), changes)

/-- Extracts the per-column bit state of a debouncer. -/
def bitState (d : Debouncer) (c : Nat) : Bool × Bool × Bool :=
  (d.db0.testBit c, d.db1.testBit c, d.debounced_state.testBit c)

/-! ## Event identity (src/key_event.rs) -/

/-- Wraps an integer into the signed 8-bit range [-128, 127], the value
space of the `AtomicI8` id counter of src/key_event.rs. -/
def wrap8 (z : Int) : Int := (z + 128) % 256 - 128

/-- Embeds the id step of `KeyEvent::next` (src/key_event.rs lines 72-83):
`LAST_ID.load() + 1` on an `i8`, wrapping to -128 past 127 (release-mode Rust
two's-complement wrap, the "intentional wraparound" of spec section 3). -/
def next_id (last : Int) : Int := wrap8 (last + 1)

/-- Value of the process-wide id counter after `n` physical transitions have
each called `KeyEvent::next`; `LAST_ID` starts at 0, so the n-th physical
event carries the id `idAfter n`. -/
def idAfter : Nat → Int
  | 0 => 0
  | n + 1 => next_id (idAfter n)

/-- Wraparound-aware signed comparison of two event ids: `a` is later than
`b` when their wrapped difference is positive, the ordering the signedness of
`KeyEventId` exists to support (src/key_event.rs lines 8-12). -/
def id_is_later (a b : Int) : Bool := decide (0 < wrap8 (a - b))

/-! ## The layer stack (src/layers.rs) -/

/-- Embeds `NUM_LAYERS` of the compiled Atreus keymap (src/layers/atreus.rs
line 12). -/
def NUM_LAYERS : Nat := 3

/-- Embeds `MAX_ACTIVE_LAYERS` (src/layers.rs line 14). -/
def MAX_ACTIVE_LAYERS : Nat := 16

/-- Embeds `NUM_KEYS = DeviceProps::ROWS * DeviceProps::COLS = 4 * 12`
(src/layers.rs line 15, src/plugins/atreus.rs). -/
def NUM_KEYS : Nat := 48

/-- Accessor view of the `KEYMAP_LINEAR` progmem table: layer index and
linear key index to `Key`.  The table itself is produced by the `keymaps!`
macro from `Key` constants of the external `kaleidoscope_internal::key_defs`
crate, so its concrete entries are kept as a parameter of the layer
functions; `Layer::key` only reads it at layer < NUM_LAYERS and a valid
address (src/layers.rs lines 93-99). -/
abbrev Keymap := Nat → Nat → Key

/-- Embeds the `Layer` struct (src/layers.rs lines 39-43) together with the
`LAYER_COUNT` global atomic (src/layers.rs line 18): `active_layers` is the
16-entry u8 stack array, `active_layer_keymap` the 48-entry per-address
layer cache, `layer_count` the global keymap layer count. -/
structure LayerState where
  active_layer_count : Nat
  active_layers : List Nat
  active_layer_keymap : List Nat
  layer_count : Nat
  deriving DecidableEq, Repr

/-- Embeds `Layer::new` (src/layers.rs lines 47-53) plus the initial
`LAYER_COUNT` value 1 (src/layers.rs line 18). -/
def LayerState.new : LayerState :=
  ⟨1, List.replicate 16 0, List.replicate 48 0, 1⟩

/-- Embeds `Layer::key` (src/layers.rs lines 93-99): out-of-range layers and
invalid addresses yield `Key_NoKey`; otherwise the keymap table is read. -/
def Layer.key (km : Keymap) (layer : Nat) (key_addr : KeyAddr) : Key :=
  if NUM_LAYERS ≤ layer || !key_addr.is_valid then Key_NoKey
  else km layer key_addr.index

/-- Embeds `Layer::lookup_on_active_layer` (src/layers.rs lines 82-85).  The
source indexes `active_layer_keymap[key_addr.index()]` unchecked; every
embedded caller reaches it only for valid addresses (index < 48), where the
`getD` default is never used. -/
def Layer.lookup_on_active_layer (km : Keymap) (st : LayerState) (key_addr : KeyAddr) : Key :=
  let layer := st.active_layer_keymap.getD key_addr.index 0
  Layer.key km layer key_addr

/-- Embeds `Layer::unshifted` (src/layers.rs lines 319-324). -/
def Layer.unshifted (layer : Nat) : Nat :=
  if LAYER_SHIFT_OFFSET ≤ layer then layer - LAYER_SHIFT_OFFSET else layer

/-- Embeds `Layer::stack_position` (src/layers.rs lines 331-339): the first
stack index holding `layer`; `none` is the `Err(Error::Layer)` outcome. -/
def Layer.stack_position (st : LayerState) (layer : Nat) : Option Nat :=
  (List.range st.active_layer_count).find?
    (fun i => st.active_layers.getD i 0 == layer)

/-- Embeds `Layer::last_layer` (src/layers.rs lines 315-317). -/
def Layer.last_layer (st : LayerState) : Nat :=
  st.active_layers.getD (st.active_layer_count - 1) 0

/-- Embeds `Layer::remove` (src/layers.rs lines 326-329):
`active_layers.copy_within((i+1)..(count-(i+1)), i)` followed by
`count -= 1`.  The Rust call panics (`none` here) when `count - (i+1)`
underflows, when the source range is reversed (start above end) or when it
reaches past the array; otherwise the elements of the source range are
copied to positions starting at `i` and the remaining positions keep their
old values. -/
def Layer.remove (st : LayerState) (i : Nat) : Option LayerState :=
  if st.active_layer_count < i + 1 then none
  else
    let e := st.active_layer_count - (i + 1)
    if e < i + 1 then none
    else if st.active_layers.length < e then none
    else
      let src := (st.active_layers.drop (i + 1)).take (e - (i + 1))
      let layers := st.active_layers.take i ++ src ++ st.active_layers.drop (i + src.length)
      some { st with active_layers := layers,
                     active_layer_count := st.active_layer_count - 1 }

/-- Embeds the inner walk of `Layer::update_active_layers` (src/layers.rs
lines 119-128): the Rust loop `for i in (0..count).rev()` reads
`active_layers[i - 1]`.  The argument is the number of remaining loop
iterations, so the body with loop variable `i = r` runs at argument `r + 1`;
when the body reaches `i = 0`, the usize index `i - 1` underflows and the
array access panics (outer `none`).  `some (some layer)` is a break with a
non-transparent layer, `some none` a loop that never ran (count = 0). -/
def Layer.walkFrom (km : Keymap) (layers : List Nat) (key_addr : KeyAddr) :
    Nat → Option (Option Nat)
  | 0 => some none
  | r + 1 =>
      if r = 0 then none
      else
        let layer := Layer.unshifted (layers.getD (r - 1) 0)
        if Layer.key km layer key_addr ≠ Key_Transparent then some (some layer)
        else Layer.walkFrom km layers key_addr r

/-- Embeds `Layer::update_active_layers` (src/layers.rs lines 112-135):
reset the cache to layer 0, then record for each address the layer found by
the (defective) top-down walk; `none` when the walk panics. -/
def Layer.update_active_layers (km : Keymap) (st : LayerState) : Option LayerState := do
  let base := List.replicate NUM_KEYS 0
  let keymap ← KeyAddr.iter.foldlM
    (fun acc key_addr => do
      match ← Layer.walkFrom km st.active_layers key_addr st.active_layer_count with
      | some layer => pure (acc.set key_addr.index layer)
      | none => pure acc)
    base
  pure { st with active_layer_keymap := keymap }

/-- Embeds `Layer::move_layer` (src/layers.rs lines 221-234).  The closing
`Hooks::on_layer_change` notification lives in the absent hooks module; the
layer-state claims do not depend on its outcome, so it is embedded as a
success. -/
def Layer.move_layer (km : Keymap) (st : LayerState) (layer : Nat) : Option LayerState :=
  if st.layer_count < layer then some st
  else
    Layer.update_active_layers km
      { st with active_layer_count := 1, active_layers := st.active_layers.set 0 layer }

/-- Embeds the `while active_layer_count >= MAX_ACTIVE_LAYERS { remove(0) }`
eviction loop of `Layer::activate` (src/layers.rs lines 250-254).  Each
successful `remove` lowers `active_layer_count` by one (`Layer.remove_count`),
so fuel `active_layer_count + 1` always outlasts the loop guard
(`Layer.evictLoop_count_lt`); the fuel-exhaustion branch is unreachable at
the call site. -/
def Layer.evictLoop : Nat → LayerState → Option LayerState
  | 0, st => some st
  | fuel + 1, st =>
      if MAX_ACTIVE_LAYERS ≤ st.active_layer_count then
        match Layer.remove st 0 with
        | none => none
        | some st1 => Layer.evictLoop fuel st1
      else some st

/-- Outcome of a `Result`-returning `Layer` method: `panic` marks a Rust
panic, `fail` an `Err` return (carrying the state at the time of the error),
`ok` a successful return. -/
inductive LRes where
  | panic : LRes
  | fail (st : LayerState) : LRes
  | ok (st : LayerState) : LRes
  deriving DecidableEq, Repr

/-- Embeds `Layer::activate` (src/layers.rs lines 237-267): no-op when the
unshifted layer is at or above the global layer count; otherwise remove an
existing occurrence, evict from the bottom while the stack is full, push the
layer on top, and recompute the cache.  The `Hooks::on_layer_change`
notification (absent hooks module) is embedded as a success. -/
def Layer.activate (km : Keymap) (st : LayerState) (layer : Nat) : LRes :=
  let layer_unshifted := Layer.unshifted layer
  if st.layer_count ≤ layer_unshifted then .ok st
  else
    let removed :=
      match Layer.stack_position st layer with
      | some old_pos => Layer.remove st old_pos
      | none => some st
    match removed with
    | none => .panic
    | some st1 =>
        match Layer.evictLoop (st1.active_layer_count + 1) st1 with
        | none => .panic
        | some st2 =>
            let st3 :=
              { st2 with
                active_layers := st2.active_layers.set st2.active_layer_count layer,
                active_layer_count := st2.active_layer_count + 1 }
            match Layer.update_active_layers km st3 with
            | none => .panic
            | some st4 => .ok st4

/-- Embeds `Layer::deactivate` (src/layers.rs lines 272-289): `fail` when
the layer is not on the stack (`Err(Error::Layer)`); deactivating the sole
active layer falls back to `move_layer(0)`; otherwise the stack position is
removed and the cache recomputed. -/
def Layer.deactivate (km : Keymap) (st : LayerState) (layer : Nat) : LRes :=
  match Layer.stack_position st layer with
  | none => .fail st
  | some current_pos =>
      if st.active_layer_count ≤ 1 then
        match Layer.move_layer km st 0 with
        | none => .panic
        | some st1 => .ok st1
      else
        match Layer.remove st current_pos with
        | none => .panic
        | some st1 =>
            match Layer.update_active_layers km st1 with
            | none => .panic
            | some st2 => .ok st2

/-- Embeds `Layer::is_active` (src/layers.rs lines 292-294): both the plain
and the shifted encoding must be on the stack.  The u8 sum
`layer + LAYER_SHIFT_OFFSET` wraps modulo 256 as in a release build. -/
def Layer.is_active (st : LayerState) (layer : Nat) : Bool :=
  (Layer.stack_position st layer).isSome &&
    (Layer.stack_position st ((layer + LAYER_SHIFT_OFFSET) % 256)).isSome

/-- Entries of the active-layer stack in order, bottom first. -/
def Layer.stackList (st : LayerState) : List Nat :=
  st.active_layers.take st.active_layer_count

/-! ## Live keys (src/live_keys.rs) -/

/-- Embeds the `LiveKeys` key map (src/live_keys.rs): one `Key` per address,
48 entries. -/
abbrev LiveKeys := List Key

/-- Embeds the `Index` read of `LiveKeys` (src/live_keys.rs lines 100-110):
invalid addresses read the `Key_Masked` dummy entry. -/
def liveGet (lk : LiveKeys) (addr : KeyAddr) : Key :=
  if addr.is_valid then lk.getD addr.index Key_NoKey else Key_Masked

/-- Embeds `LiveKeys::activate` (src/live_keys.rs lines 37-41). -/
def liveActivate (lk : LiveKeys) (addr : KeyAddr) (key : Key) : LiveKeys :=
  if addr.is_valid then lk.set addr.index key else lk

/-- Embeds `LiveKeys::clear` (src/live_keys.rs lines 44-48). -/
def liveClear (lk : LiveKeys) (addr : KeyAddr) : LiveKeys :=
  if addr.is_valid then lk.set addr.index Key_Inactive else lk

/-- Embeds `LiveKeys::mask` (src/live_keys.rs lines 52-56). -/
def liveMask (lk : LiveKeys) (addr : KeyAddr) : LiveKeys :=
  if addr.is_valid then lk.set addr.index Key_Masked else lk

/-! ## HID transport (external `keyboardio_hid` crate and src/driver/hid) -/

/-- Modelled from the spec: the HID transport contract of spec section 6.
The per-report keycode containers live in the external `keyboardio_hid`
crate; `pressed` is the set of keycodes in the in-progress keyboard report
(kept as a duplicate-free list), `sent` the sequence of transmitted keyboard
reports, `consumer` and `sys_pressed` the consumer-control and
system-control reports, `last_sysctl` the bookkeeping byte of
src/driver/hid/keyboardio.rs. -/
structure HidState where
  pressed : List Nat
  consumer : List Nat
  sys_pressed : List Nat
  last_sysctl : Nat
  sent : List (List Nat)
  deriving DecidableEq, Repr

/-- Modelled from the spec: press a raw keycode into the keyboard report
(idempotent, as a report either holds a keycode or does not). -/
def hidPress (h : HidState) (kc : Nat) : HidState :=
  if h.pressed.contains kc then h else { h with pressed := h.pressed ++ [kc] }

/-- Modelled from the spec: release a raw keycode from the keyboard report. -/
def hidRelease (h : HidState) (kc : Nat) : HidState :=
  { h with pressed := h.pressed.filter (fun x => x ≠ kc) }

/-- Modelled from the spec: `send_report` transmits the current keyboard
report to the host. -/
def hidSendReport (h : HidState) : HidState :=
  { h with sent := h.sent ++ [h.pressed] }

/-- Embeds `Keyboardio::is_key_pressed` (src/driver/hid/keyboardio.rs lines
63-74): membership of the keycode (flags ignored) in the current report. -/
def hidIsKeyPressed (h : HidState) (key : Key) : Bool :=
  h.pressed.contains key.key_code

/-- Modelled from the spec: `release_all_keys` empties the keyboard report. -/
def hidReleaseAll (h : HidState) : HidState :=
  { h with pressed := [] }

/-- Embeds the `press_modifiers!` macro body (src/driver/hid/keyboardio.rs):
press the modifier keycode for each held-modifier flag of the key, in the
order shift, ctrl, left-alt, right-alt, gui. -/
def hidPressModifiers (h : HidState) (key : Key) : HidState :=
  let flags := key.flags
  let h1 := if flags &&& SHIFT_HELD ≠ 0 then hidPress h Key_LeftShift.key_code else h
  let h2 := if flags &&& CTRL_HELD ≠ 0 then hidPress h1 Key_LeftControl.key_code else h1
  let h3 := if flags &&& LALT_HELD ≠ 0 then hidPress h2 Key_LeftAlt.key_code else h2
  let h4 := if flags &&& RALT_HELD ≠ 0 then hidPress h3 Key_RightAlt.key_code else h3
  if flags &&& GUI_HELD ≠ 0 then hidPress h4 Key_LeftGui.key_code else h4

/-- Embeds the `release_modifiers!` macro body (src/driver/hid/keyboardio.rs). -/
def hidReleaseModifiers (h : HidState) (key : Key) : HidState :=
  let flags := key.flags
  let h1 := if flags &&& SHIFT_HELD ≠ 0 then hidRelease h Key_LeftShift.key_code else h
  let h2 := if flags &&& CTRL_HELD ≠ 0 then hidRelease h1 Key_LeftControl.key_code else h1
  let h3 := if flags &&& LALT_HELD ≠ 0 then hidRelease h2 Key_LeftAlt.key_code else h2
  let h4 := if flags &&& RALT_HELD ≠ 0 then hidRelease h3 Key_RightAlt.key_code else h3
  if flags &&& GUI_HELD ≠ 0 then hidRelease h4 Key_LeftGui.key_code else h4

/-- Embeds `Keyboardio::press_key` (src/driver/hid/keyboardio.rs): press the
flag modifiers, then the raw keycode. -/
def hidPressKey (h : HidState) (key : Key) : HidState :=
  hidPress (hidPressModifiers h key) key.key_code

/-- Embeds `Keyboardio::release_key` (src/driver/hid/keyboardio.rs): release
the flag modifiers, then the raw keycode. -/
def hidReleaseKey (h : HidState) (key : Key) : HidState :=
  hidRelease (hidReleaseModifiers h key) key.key_code

/-- Modelled from the spec: the 10-bit consumer-control usage of a key,
truncated to u8 by `press_consumer_control` (src/driver/hid/base/keyboard.rs). -/
def Key.consumer (k : Key) : Nat := k.raw % 1024

/-- Embeds `Keyboard::press_consumer_control` (src/driver/hid/base/keyboard.rs). -/
def hidPressConsumerControl (h : HidState) (key : Key) : HidState :=
  if h.consumer.contains (key.consumer % 256) then h
  else { h with consumer := h.consumer ++ [key.consumer % 256] }

/-- Embeds `Keyboardio::press_system_control` (src/driver/hid/keyboardio.rs
lines 152-159): press the keycode on the system-control report and record it. -/
def hidPressSystemControl (h : HidState) (key : Key) : HidState :=
  let kc := key.key_code
  let h1 := if h.sys_pressed.contains kc then h
            else { h with sys_pressed := h.sys_pressed ++ [kc] }
  { h1 with last_sysctl := kc }

/-- Embeds `Keyboard::release_system_control` (src/driver/hid/base/keyboard.rs):
release only when the keycode matches the last pressed one. -/
def hidReleaseSystemControl (h : HidState) (key : Key) : HidState :=
  if key.key_code == h.last_sysctl then
    { h with sys_pressed := h.sys_pressed.filter (fun x => x ≠ key.key_code) }
  else h

/-! ## Events and hooks -/

/-- Embeds the `KeyEvent` struct (src/key_event.rs lines 52-58) restricted
to the fields the pipeline reads: address, keyswitch state and key value.
The `id`/`last_id` fields exist only for plugin coordination and are never
read by the embedded pipeline functions; their generation is covered by the
`idAfter` model above. -/
structure KeyEvent where
  addr : KeyAddr
  state : KeyswitchState
  key : Key
  deriving DecidableEq, Repr

/-- Modelled from the spec: the plugin hook chains of spec section 6,
consumed by the pipeline.  The hooks module is declared in src/lib.rs but
absent from src/.  Each chain returns continue (`Except.ok`) or one of the
`EventHandlerError` outcomes; the two event hooks may also rewrite the
event's key value, the only mutation `KeyEvent::set_key` offers to a
handler holding `&mut event`.  The `on_layer_change` notification fired
inside the `Layer` methods is embedded there as a success. -/
structure Hooks where
  on_keyswitch_event : KeyEvent → EHResult × Key
  on_key_event : KeyEvent → EHResult × Key
  on_add_to_report : Key → EHResult
  before_reporting_state : KeyEvent → EHResult
  after_reporting_state : KeyEvent → EHResult

/-- Hooks that always continue and leave the event untouched. -/
def okHooks : Hooks :=
  ⟨fun e => (Except.ok (), e.key), fun e => (Except.ok (), e.key),
   fun _ => Except.ok (), fun _ => Except.ok (), fun _ => Except.ok ()⟩

/-- Rust `Result::is_err` on a hook-chain result. -/
def ehIsErr (r : EHResult) : Bool :=
  match r with
  | Except.ok _ => false
  | Except.error _ => true

/-- Rust `result == Err(EventHandlerError::Abort)` on a hook-chain result. -/
def ehIsAbort (r : EHResult) : Bool :=
  match r with
  | Except.error EventHandlerError.Abort => true
  | _ => false

/-- Shared mutable state of the pipeline: the `LIVE_KEYS`, `LAYER` and `HID`
globals of src/lib.rs plus the `last_addr_toggled_on` field of `Runtime`
(src/runtime.rs lines 10-15). -/
structure RtState where
  live_keys : LiveKeys
  layer : LayerState
  hid : HidState
  last_addr_toggled_on : KeyAddr
  deriving DecidableEq, Repr

/-- Outcome of a `Result`-returning pipeline step over the shared state:
`panic` marks a Rust panic, `fail` an `Err` return, `ok` success. -/
inductive RRes where
  | panic : RRes
  | fail (st : RtState) : RRes
  | ok (st : RtState) : RRes
  deriving DecidableEq, Repr

/-- Embeds `Runtime::lookup_key` (src/runtime.rs lines 349-359): the live
entry, unless it is clear (`Key_Transparent`), in which case the active
keymap layers answer. -/
def Runtime.lookup_key (km : Keymap) (st : RtState) (key_addr : KeyAddr) : Key :=
  let key := liveGet st.live_keys key_addr
  if key == Key_Transparent then Layer.lookup_on_active_layer km st.layer key_addr
  else key

/-- Embeds `Layer::handle_layer_key_event` (src/layers.rs lines 141-216)
over the shared state (the source method also writes the `LIVE_KEYS`
global).  The port nests the layer-shift and layer-lock branches inside the
`key_code >= LAYER_MOVE_OFFSET` branch (lines 148-213), and that nesting is
kept as written.  u8 arithmetic (`top_layer - 1`, `+ LAYER_SHIFT_OFFSET`)
wraps modulo 256 as in a release build. -/
def Runtime.handle_layer_key_event (km : Keymap) (st : RtState) (event : KeyEvent) : RRes :=
  let key_code0 := event.key.key_code
  let key_code :=
    if event.key.is_mod_layer_key then (key_code0 / 8 + LAYER_SHIFT_OFFSET) % 256
    else key_code0
  if LAYER_MOVE_OFFSET ≤ key_code then
    if event.state.key_toggled_on then
      match Layer.move_layer km st.layer (key_code - LAYER_MOVE_OFFSET) with
      | none => .panic
      | some l1 => .ok { st with layer := l1 }
    else if LAYER_SHIFT_OFFSET ≤ key_code then
      let target_layer := key_code - LAYER_SHIFT_OFFSET
      if target_layer = KEYMAP_NEXT ∨ target_layer = KEYMAP_PREVIOUS then
        if event.state.key_toggled_on then
          let top_layer := Layer.unshifted (Layer.last_layer st.layer)
          let target2 :=
            if target_layer = KEYMAP_NEXT then (top_layer + 1) % 256
            else (top_layer + 255) % 256
          if st.layer.layer_count ≤ target2 then
            .ok { st with live_keys := liveMask st.live_keys event.addr }
          else
            match Layer.activate km st.layer ((target2 + LAYER_SHIFT_OFFSET) % 256) with
            | .panic => .panic
            | .fail l1 => .fail { st with layer := l1 }
            | .ok l1 =>
                .ok { st with
                        layer := l1
                        live_keys := liveActivate st.live_keys event.addr
                          (shift_to_layer target2) }
        else .ok st
      else
        let target := (target_layer + LAYER_SHIFT_OFFSET) % 256
        if event.state.key_toggled_on then
          if (Layer.stack_position st.layer target).isNone then
            match Layer.activate km st.layer target with
            | .panic => .panic
            | .fail l1 => .fail { st with layer := l1 }
            | .ok l1 => .ok { st with layer := l1 }
          else .ok st
        else
          match Layer.deactivate km st.layer target with
          | .panic => .panic
          | .fail l1 => .fail { st with layer := l1 }
          | .ok l1 => .ok { st with layer := l1 }
    else if event.state.key_toggled_on then
      let target_layer := key_code
      let top_locked_layer :=
        (Layer.stackList st.layer).foldl
          (fun acc l => if l < LAYER_SHIFT_OFFSET then l else acc)
          (MAX_ACTIVE_LAYERS + 1)
      if top_locked_layer = target_layer then
        match Layer.deactivate km st.layer target_layer with
        | .panic => .panic
        | .fail l1 => .fail { st with layer := l1 }
        | .ok l1 => .ok { st with layer := l1 }
      else
        match Layer.activate km st.layer target_layer with
        | .panic => .panic
        | .fail l1 => .fail { st with layer := l1 }
        | .ok l1 => .ok { st with layer := l1 }
    else .ok st
  else .ok st

/-- Embeds `Runtime::add_to_report` (src/runtime.rs lines 261-289): the
add-to-report hook may abort; mod-layer keys are translated to their
modifier keycode; keyboard keys have incidental flags stripped unless the
key itself is a modifier, then are pressed; consumer-control keys are
pressed on the consumer report. -/
def Runtime.add_to_report (hooks : Hooks) (h : HidState) (key0 : Key) : HidState :=
  if ehIsAbort (hooks.on_add_to_report key0) then h
  else
    let key1 :=
      if key0.is_mod_layer_key then Key.from_raw (Key_LeftControl.raw + key0.key_code % 8)
      else key0
    if key1.is_keyboard_key then
      let key2 := if !key1.is_keyboard_modifier then key1.set_flags 0 else key1
      hidPressKey h key2
    else if key1.is_consumer_control_key then hidPressConsumerControl h key1
    else h

/-- Embeds `Runtime::prepare_keyboard_report` (src/runtime.rs lines
226-253): clear the report, then add every live entry except the
triggering address and the `Inactive`/`Masked` sentinels. -/
def Runtime.prepare_keyboard_report (hooks : Hooks) (st : RtState) (event : KeyEvent) :
    RtState :=
  let hid1 := KeyAddr.iter.foldl
    (fun h key_addr =>
      if key_addr == event.addr then h
      else
        let key := liveGet st.live_keys key_addr
        if key == Key_Inactive || key == Key_Masked then h
        else Runtime.add_to_report hooks h key)
    (hidReleaseAll st.hid)
  { st with hid := hid1 }

/-- Embeds `Runtime::send_keyboard_report` (src/runtime.rs lines 298-343):
rollover-safe transmission.  For a toggled-on keyboard key, record the
address, flush an intermediate report after releasing an already-pressed
same keycode, and flush an intermediate report after pressing non-empty
modifier flags; otherwise re-assert the modifiers of the last toggled-on
live key; then add the event's own key on toggle-on, consult the
pre-report hook (only an abort suppresses transmission) and transmit. -/
def Runtime.send_keyboard_report (hooks : Hooks) (st : RtState) (event : KeyEvent) :
    RtState :=
  let stA :=
    if event.state.key_toggled_on && event.key.is_keyboard_key then
      let st1 := { st with last_addr_toggled_on := event.addr }
      let st2 :=
        if hidIsKeyPressed st1.hid event.key then
          { st1 with hid := hidSendReport (hidReleaseKey st1.hid event.key) }
        else st1
      if event.key.flags ≠ 0 then
        { st2 with hid := hidSendReport (hidPressModifiers st2.hid event.key) }
      else st2
    else if event.addr ≠ st.last_addr_toggled_on then
      let last_key := liveGet st.live_keys st.last_addr_toggled_on
      if last_key.is_keyboard_key then
        { st with hid := hidPressModifiers st.hid last_key }
      else st
    else st
  let stB :=
    if event.state.key_toggled_on then
      { stA with hid := Runtime.add_to_report hooks stA.hid event.key }
    else stA
  if ehIsAbort (hooks.before_reporting_state event) then stB
  else { stB with hid := hidSendReport stB.hid }

/-- Embeds the key-resolution step at the top of `Runtime::handle_key_event`
(src/runtime.rs lines 145-149): valid-address events that toggled off or
still carry `Key_Undefined` get their key looked up. -/
def Runtime.resolve_event (km : Keymap) (st : RtState) (event : KeyEvent) : KeyEvent :=
  if event.addr.is_valid &&
      (event.state.key_toggled_off || event.key == Key_Undefined) then
    { event with key := Runtime.lookup_key km st event.addr }
  else event

/-- The event as the key-event hook chain leaves it: resolved first
(src/runtime.rs lines 145-149), its key then possibly rewritten by the
hooks. -/
def Runtime.hooked_event (km : Keymap) (hooks : Hooks) (st : RtState)
    (event : KeyEvent) : KeyEvent :=
  { Runtime.resolve_event km st event with
    key := (hooks.on_key_event (Runtime.resolve_event km st event)).2 }

/-- The LiveKeys update of `Runtime::handle_key_event` (src/runtime.rs lines
159-165): clear the address on toggle-off, activate it with the event's key
otherwise; no update for invalid addresses. -/
def liveUpdateForEvent (lk : LiveKeys) (ev : KeyEvent) : LiveKeys :=
  if ev.addr.is_valid then
    if ev.state.key_toggled_off then liveClear lk ev.addr
    else liveActivate lk ev.addr ev.key
  else lk

/-- Embeds the report portion of `Runtime::handle_key_event`
(src/runtime.rs lines 184-216), reached after any layer-key dispatch
succeeded: layer keys send no report, system-control keys press or release
the dedicated report immediately, and any other key rebuilds and transmits
the keyboard report.  The closing `after_reporting_state` hook cannot
modify the embedded state. -/
def Runtime.handle_key_event_finish (hooks : Hooks) (st2 : RtState) (ev2 : KeyEvent) :
    RtState :=
  let key := ev2.key
  if key.is_layer_key then st2
  else if key.is_system_control_key then
    { st2 with hid :=
      if ev2.state.key_toggled_on then hidPressSystemControl st2.hid key
      else hidReleaseSystemControl st2.hid key }
  else
    Runtime.send_keyboard_report hooks
      (Runtime.prepare_keyboard_report hooks st2 ev2) ev2

/-- Embeds the tail of `Runtime::handle_key_event` (src/runtime.rs lines
179-216), entered after the LiveKeys update with a non-sentinel key: layer
and mod-layer keys are dispatched to `handle_layer_key_event` first (an
`Err` makes `return_on_err!` end the function early, a panic propagates),
then the report portion runs. -/
def Runtime.handle_key_event_tail (km : Keymap) (hooks : Hooks) (st1 : RtState)
    (ev2 : KeyEvent) : Option RtState :=
  if ev2.key.is_layer_key || ev2.key.is_mod_layer_key then
    match Runtime.handle_layer_key_event km st1 ev2 with
    | .panic => none
    | .fail st2 => some st2
    | .ok st2 => some (Runtime.handle_key_event_finish hooks st2 ev2)
  else some (Runtime.handle_key_event_finish hooks st1 ev2)

/-- Embeds `Runtime::handle_key_event` (src/runtime.rs lines 142-216):
resolve the key, run the key-event hook chain (an abort returns before the
LiveKeys update), update LiveKeys, short-circuit on a hook error or a
sentinel key, then run the tail.  `none` marks a Rust panic (reachable only
through the defective layer-stack code). -/
def Runtime.handle_key_event (km : Keymap) (hooks : Hooks) (st : RtState)
    (event : KeyEvent) : Option RtState :=
  let res := (hooks.on_key_event (Runtime.resolve_event km st event)).1
  let ev2 := Runtime.hooked_event km hooks st event
  if ehIsAbort res then some st
  else
    let st1 := { st with live_keys := liveUpdateForEvent st.live_keys ev2 }
    let key := ev2.key
    if ehIsErr res || key == Key_Masked || key == Key_NoKey ||
        key == Key_Undefined || key == Key_Transparent then some st1
    else Runtime.handle_key_event_tail km hooks st1 ev2

/-- Embeds `Runtime::handle_keyswitch_event` (src/runtime.rs lines 93-134):
drop invalid addresses and non-transitions; on toggle-off read the live key
and consume a masked release silently; on toggle-on resolve a still
undefined key; then run the keyswitch-event hook chain (any non-OK result
stops) and hand over to `handle_key_event`. -/
def Runtime.handle_keyswitch_event (km : Keymap) (hooks : Hooks) (st : RtState)
    (event : KeyEvent) : Option RtState :=
  if !event.addr.is_valid then some st
  else if !(event.state.key_toggled_on || event.state.key_toggled_off) then some st
  else
    let ev1 :=
      if event.state.key_toggled_off then
        { event with key := liveGet st.live_keys event.addr }
      else if event.key == Key_Undefined then
        { event with key := Runtime.lookup_key km st event.addr }
      else event
    if event.state.key_toggled_off && ev1.key == Key_Masked then
      some { st with live_keys := liveClear st.live_keys event.addr }
    else
      let out := hooks.on_keyswitch_event ev1
      if ehIsErr out.1 then some st
      else Runtime.handle_key_event km hooks st { ev1 with key := out.2 }

/-- Runtime state after `Runtime::setup` (src/runtime.rs lines 32-42):
LiveKeys cleared to `Key_Inactive`, fresh layer stack, empty HID reports,
the invalid default as last toggled-on address. -/
def RtState.init : RtState :=
  ⟨List.replicate 48 Key_Inactive, LayerState.new, ⟨[], [], [], 0, []⟩, KeyAddr.default⟩

/-- Hooks whose key-event chain aborts every event (all other chains
continue), for exercising the abort path. -/
def abortKeyEventHooks : Hooks :=
  ⟨fun e => (Except.ok (), e.key),
   fun e => (Except.error EventHandlerError.Abort, e.key),
   fun _ => Except.ok (), fun _ => Except.ok (), fun _ => Except.ok ()⟩

/-- Hooks whose key-event chain stops every event with the unspecified
error (all other chains continue). -/
def errorKeyEventHooks : Hooks :=
  ⟨fun e => (Except.ok (), e.key),
   fun e => (Except.error EventHandlerError.Error, e.key),
   fun _ => Except.ok (), fun _ => Except.ok (), fun _ => Except.ok ()⟩

/-- Keycodes that `press_modifiers!` presses for a given flag byte, in press
order: left-shift, left-control, left-alt, right-alt, left-gui. -/
def modifierCodesOf (flags : Nat) : List Nat :=
  (if flags &&& SHIFT_HELD ≠ 0 then [225] else []) ++
  (if flags &&& CTRL_HELD ≠ 0 then [224] else []) ++
  (if flags &&& LALT_HELD ≠ 0 then [226] else []) ++
  (if flags &&& RALT_HELD ≠ 0 then [230] else []) ++
  (if flags &&& GUI_HELD ≠ 0 then [227] else [])

/-! ## Theorems -/

theorem testBit_notU16 (x c : Nat) (hc : c < 16) :
    (notU16 x).testBit c = !x.testBit c := by
  have h : Nat.testBit 65535 c = true := by
    have h16 : (65535 : Nat) = 2 ^ 16 - 1 := by norm_num
    rw [h16, Nat.testBit_two_pow_sub_one]
    exact decide_eq_true hc
  simp [notU16, Nat.testBit_xor, h]

theorem bitState_debounce (d : Debouncer) (sample c : Nat) (hc : c < 16) :
    bitState (debounce d sample).1 c =
      (bitStep (sample.testBit c) (bitState d c)).1 ∧
    (debounce d sample).2.testBit c = (bitStep (sample.testBit c) (bitState d c)).2 := by
  simp only [bitState, debounce, bitStep, Nat.testBit_xor, Nat.testBit_land,
    Nat.testBit_lor, testBit_notU16 _ _ hc, Prod.mk.injEq]
  refine ⟨⟨?_, ?_, ?_⟩, ?_⟩ <;>
    cases sample.testBit c <;> cases d.db0.testBit c <;> cases d.db1.testBit c <;>
    cases d.debounced_state.testBit c <;> first | rfl | trivial

theorem bitState_debounceN (sample c : Nat) (hc : c < 16) :
    ∀ (n : Nat) (d : Debouncer),
      bitState (debounceN sample n d) c =
        (fun s => (bitStep (sample.testBit c) s).1)^[n] (bitState d c) := by
  intro n
  induction n with
  | zero => intro d; rfl
  | succ n ih =>
      intro d
      rw [debounceN, ih, Function.iterate_succ_apply,
        (bitState_debounce d sample c hc).1]

/-- Per-bit stabilisation: four evaluations of a held sample drive any
counter state to the settled state (false, false, sample bit). -/
theorem bitStep_four (v : Bool) (s : Bool × Bool × Bool) :
    (fun t => (bitStep v t).1)^[4] s = (false, false, v) := by
  rcases s with ⟨a, b, d⟩
  cases v <;> cases a <;> cases b <;> cases d <;> rfl

/-- The settled state is a fixed point with no reported change. -/
theorem bitStep_settled (v : Bool) :
    bitStep v (false, false, v) = ((false, false, v), false) := by
  cases v <;> rfl

theorem wrap8_eq (z : Int) : wrap8 z = (z + 128) % 256 - 128 := rfl

theorem idAfter_eq (n : Nat) : idAfter n = wrap8 n := by
  induction n with
  | zero => rfl
  | succ n ih =>
      show next_id (idAfter n) = wrap8 (n + 1)
      rw [ih]
      unfold next_id wrap8
      omega

theorem bitStep_settled_iterate (v : Bool) (m : Nat) :
    (fun t => (bitStep v t).1)^[m] (false, false, v) = (false, false, v) := by
  induction m with
  | zero => rfl
  | succ m ih => rw [Function.iterate_succ_apply, bitStep_settled, ih]

theorem bitStep_no_fire :
    ∀ (v : Bool) (s : Bool × Bool × Bool),
      (s.1 && s.2.1) = false → (bitStep v s).1.2.2 = s.2.2 := by
  decide

theorem bitState_settled (sample c : Nat) (hc : c < 16) (d : Debouncer)
    (n : Nat) (hn : 4 ≤ n) :
    bitState (debounceN sample n d) c = (false, false, sample.testBit c) := by
  obtain ⟨m, rfl⟩ : ∃ m, n = 4 + m := ⟨n - 4, by omega⟩
  rw [bitState_debounceN sample c hc, Nat.add_comm 4 m, Function.iterate_add_apply,
    bitStep_four, bitStep_settled_iterate]

/-- Claim C4 (amended).  For the per-row `debounce` function and any single
column bit, from any starting counter state: once the same raw sample value
has been held steady for at least FOUR consecutive debounce evaluations (not
two, as claimed), `debounced_state` for that column equals the held raw
value, and every further evaluation of the held sample returns a `changes`
bit of 0; and a raw value presented for a single evaluation never changes
`debounced_state` provided the column's two counter bits are not both set
(which is the case whenever the previous evaluation's sample agreed with the
debounced state, since agreement resets both counter bits). -/
theorem c4_debounce_stability (d : Debouncer) (sample c : Nat) (hc : c < 16) :
    (∀ n, 4 ≤ n →
      (debounceN sample n d).debounced_state.testBit c = sample.testBit c ∧
      (debounce (debounceN sample n d) sample).2.testBit c = false) ∧
    ((d.db0.testBit c && d.db1.testBit c) = false →
      (debounce d sample).1.debounced_state.testBit c = d.debounced_state.testBit c) := by
  constructor
  · intro n hn
    have hs := bitState_settled sample c hc d n hn
    constructor
    · have := congrArg (fun t => t.2.2) hs
      simpa [bitState] using this
    · have h2 := (bitState_debounce (debounceN sample n d) sample c hc).2
      rw [h2, hs, bitStep_settled]
  · intro h
    have h1 := congrArg (fun t => t.2.2) (bitState_debounce d sample c hc).1
    simp only [bitState] at h1
    rw [h1]
    exact bitStep_no_fire (sample.testBit c) (bitState d c) h

/-- Claim C4 witness: the amended stability statement evaluated for column 0
of a zeroed debouncer holding the raw sample 1. -/
theorem c4_debounce_stability_witness :
    (0 : Nat) < 16 ∧
    ((∀ n, 4 ≤ n →
      (debounceN 1 n ⟨0, 0, 0⟩).debounced_state.testBit 0 = Nat.testBit 1 0 ∧
      (debounce (debounceN 1 n ⟨0, 0, 0⟩) 1).2.testBit 0 = false) ∧
    ((Nat.testBit 0 0 && Nat.testBit 0 0) = false →
      (debounce ⟨0, 0, 0⟩ 1).1.debounced_state.testBit 0 = Nat.testBit 0 0)) :=
  ⟨by decide, c4_debounce_stability ⟨0, 0, 0⟩ 1 0 (by decide)⟩

/-- Claim C4 counterexample: holding the raw value 1 on column 0 for two
consecutive evaluations, starting from the zeroed counter state, leaves
`debounced_state` at 0, so after "at least two consecutive debounce
evaluations" the debounced state does NOT yet equal the held raw value
(the 2-bit counter needs four agreeing evaluations, as the source comment
"our debouncing algorithm does four checks" states). -/
theorem c4_two_evaluations_counterexample :
    (debounceN 1 2 ⟨0, 0, 0⟩).debounced_state.testBit 0 = false ∧
    Nat.testBit 1 0 = true := by
  decide

/-- Claim C8 (amended).  Successive physical keyswitch events receive
strictly increasing ids under the wraparound-aware signed i8 ordering, and
any two distinct events fewer than 256 transitions apart have distinct ids;
but because the counter is 8 bits wide, ids repeat every 256 events, so "no
two physical events share an id" only holds within such a window (see the
counterexample for events 1 and 257). -/
theorem c8_event_id_ordering (n k : Nat) (h0 : 0 < k) (hk : k < 256) :
    id_is_later (idAfter (n + 1)) (idAfter n) = true ∧
    idAfter (n + k) ≠ idAfter n := by
  constructor
  · simp only [id_is_later, idAfter_eq, wrap8, decide_eq_true_eq]
    push_cast
    omega
  · intro h
    rw [idAfter_eq, idAfter_eq] at h
    unfold wrap8 at h
    push_cast at h
    omega

/-- Claim C8 witness: the ordering statement evaluated at the first two
physical events. -/
theorem c8_event_id_ordering_witness :
    0 < 1 ∧ 1 < 256 ∧
    (id_is_later (idAfter (0 + 1)) (idAfter 0) = true ∧
      idAfter (0 + 1) ≠ idAfter 0) :=
  ⟨by decide, by decide, c8_event_id_ordering 0 1 (by decide) (by decide)⟩

/-- Claim C8 counterexample: the 1st and the 257th physical events carry the
same `KeyEventId` (the i8 counter wraps modulo 256), so two distinct
physical events can share an id. -/
theorem c8_id_reuse_counterexample : idAfter 257 = idAfter 1 ∧ (257 : Nat) ≠ 1 := by
  refine ⟨?_, by decide⟩
  rw [idAfter_eq, idAfter_eq]
  unfold wrap8
  norm_num

theorem Layer.remove_count (st : LayerState) (i : Nat) (st1 : LayerState)
    (h : Layer.remove st i = some st1) :
    st1.active_layer_count = st.active_layer_count - 1 := by
  simp only [Layer.remove] at h
  split at h
  · exact absurd h (by simp)
  · split at h
    · exact absurd h (by simp)
    · split at h
      · exact absurd h (by simp)
      · cases h
        rfl

theorem Layer.evictLoop_count_lt :
    ∀ (fuel : Nat) (st : LayerState),
      st.active_layer_count < MAX_ACTIVE_LAYERS + fuel →
      ∀ st1, Layer.evictLoop fuel st = some st1 →
        st1.active_layer_count < MAX_ACTIVE_LAYERS := by
  intro fuel
  induction fuel with
  | zero =>
      intro st h st1 heq
      cases heq
      omega
  | succ fuel ih =>
      intro st h st1 heq
      rw [Layer.evictLoop] at heq
      split at heq
      · rename_i hge
        cases hr : Layer.remove st 0 with
        | none => rw [hr] at heq; exact absurd heq (by simp)
        | some st2 =>
            rw [hr] at heq
            have hc := Layer.remove_count st 0 st2 hr
            have hM : MAX_ACTIVE_LAYERS = 16 := rfl
            exact ih st2 (by omega) st1 heq
      · cases heq
        omega

theorem mem_take_iff_exists_getD (l : List Nat) (n : Nat) (hn : n ≤ l.length) (x : Nat) :
    x ∈ l.take n ↔ ∃ i, i < n ∧ l.getD i 0 = x := by
  rw [List.mem_iff_getElem]
  constructor
  · rintro ⟨i, hi, hget⟩
    have hlen : (l.take n).length = n := by rw [List.length_take]; omega
    rw [hlen] at hi
    refine ⟨i, hi, ?_⟩
    rw [List.getD_eq_getElem l 0 (by omega), ← hget, List.getElem_take]
  · rintro ⟨i, hin, hget⟩
    have hlt : i < (l.take n).length := by rw [List.length_take]; omega
    refine ⟨i, hlt, ?_⟩
    rw [List.getElem_take, ← List.getD_eq_getElem l 0 (by omega), hget]

theorem Layer.stack_position_isSome (st : LayerState) (x : Nat)
    (hwf : st.active_layer_count ≤ st.active_layers.length) :
    (Layer.stack_position st x).isSome = true ↔ x ∈ Layer.stackList st := by
  unfold Layer.stack_position Layer.stackList
  rw [List.find?_isSome, mem_take_iff_exists_getD _ _ hwf]
  constructor
  · rintro ⟨i, hi, hp⟩
    exact ⟨i, List.mem_range.mp hi, by simpa using hp⟩
  · rintro ⟨i, hi, hget⟩
    exact ⟨i, List.mem_range.mpr hi, by simpa using hget⟩

/-- Claim C1 (code bug): `Layer::update_active_layers` never establishes the
claimed cache contents because its inner loop reads `active_layers[i - 1]`
with `i` counting down to 0 (src/layers.rs line 121): whenever the walk over
a key address reaches `i = 0` before finding a non-transparent layer, the
usize index underflows and the array access panics.  In the initial state
(one active layer) the very first iteration is `i = 0`, so the function
panics for every keymap before writing any entry; consequently the claimed
walk result, and the `lookup_on_active_layer` base-layer fallback it
implies, are never reached. -/
theorem c1_update_active_layers_panics (km : Keymap) :
    Layer.update_active_layers km LayerState.new = none := rfl

/-- Claim C3 (code bug): deactivating the sole active layer does not leave
layer 0 as the sole active layer — it panics.  `Layer::deactivate` falls
back to `move_layer(0)`, which calls `update_active_layers` on a
single-entry stack, and that walk immediately evaluates
`active_layers[0 - 1]` (src/layers.rs line 121), an out-of-bounds access.
So the claimed invariant has no post-state to hold in: from the initial
state, `deactivate(0)` — the first step of the simplest activate/deactivate
sequence exercising the sole-layer case — dies instead of re-establishing
`1 <= active_layer_count <= 16`. -/
theorem c3_deactivate_sole_layer_panics (km : Keymap) :
    Layer.deactivate km LayerState.new 0 = LRes.panic := rfl

/-- Claim C5 (code bug): activating a 17th layer onto a full 16-entry stack
does evict and does leave 16 entries with the new layer on top, but the
relative order of the remaining entries is NOT preserved: `Layer::remove`
ports the C++ `memmove(dst, src, count-(i+1))` as
`copy_within((i+1)..(count-(i+1)), i)` (src/layers.rs line 327), using the
length as the range end, so it copies two entries too few.  Evicting the
bottom of `[0, 1, ..., 15]` and pushing 16 yields
`[1, ..., 13, 14, 14, 16]` — entry 14 duplicated and entry 15 lost — rather
than the claimed `[1, ..., 14, 15, 16]`.  (The keymap used here has no
transparent entries, so the subsequent cache recomputation walks without
panicking; its cache maps every address to the stale layer 14.) -/
theorem c5_activate_full_stack_eviction :
    Layer.activate (fun _ _ => Key_NoKey)
        ⟨16, [0, 1, 2, 3, 4, 5, 6, 7, 8, 9, 10, 11, 12, 13, 14, 15],
          List.replicate 48 0, 17⟩ 16 =
      LRes.ok ⟨16, [1, 2, 3, 4, 5, 6, 7, 8, 9, 10, 11, 12, 13, 14, 14, 16],
        List.replicate 48 14, 17⟩ ∧
    ([1, 2, 3, 4, 5, 6, 7, 8, 9, 10, 11, 12, 13, 14, 14, 16] : List Nat) ≠
      [1, 2, 3, 4, 5, 6, 7, 8, 9, 10, 11, 12, 13, 14, 15, 16] :=
  ⟨by decide, by decide⟩

/-- Claim C9 (confirmed): `Layer::is_active(layer)` returns true exactly
when both the plain encoding `layer` and the shifted encoding
`layer + LAYER_SHIFT_OFFSET` are simultaneously on the active-layer stack;
in particular a layer present under only one of the two encodings is
reported inactive. -/
theorem c9_is_active_requires_both_encodings (st : LayerState) (layer : Nat)
    (hwf : st.active_layer_count ≤ st.active_layers.length) :
    Layer.is_active st layer = true ↔
      layer ∈ Layer.stackList st ∧
        (layer + LAYER_SHIFT_OFFSET) % 256 ∈ Layer.stackList st := by
  unfold Layer.is_active
  rw [Bool.and_eq_true, Layer.stack_position_isSome st layer hwf,
    Layer.stack_position_isSome st _ hwf]

/-- Claim C9 witness: on a stack holding layer 1 only under its plain
encoding, `is_active(1)` reports false; adding the shifted encoding 43
makes it report true. -/
theorem c9_is_active_witness :
    (2 ≤ ([1, 0, 0, 0, 0, 0, 0, 0, 0, 0, 0, 0, 0, 0, 0, 0] : List Nat).length ∧
      (Layer.is_active ⟨2, [1, 0, 0, 0, 0, 0, 0, 0, 0, 0, 0, 0, 0, 0, 0, 0],
          List.replicate 48 0, 3⟩ 1 = true ↔
        1 ∈ Layer.stackList ⟨2, [1, 0, 0, 0, 0, 0, 0, 0, 0, 0, 0, 0, 0, 0, 0, 0],
            List.replicate 48 0, 3⟩ ∧
        (1 + LAYER_SHIFT_OFFSET) % 256 ∈
          Layer.stackList ⟨2, [1, 0, 0, 0, 0, 0, 0, 0, 0, 0, 0, 0, 0, 0, 0, 0],
            List.replicate 48 0, 3⟩)) ∧
    Layer.is_active ⟨2, [1, 0, 0, 0, 0, 0, 0, 0, 0, 0, 0, 0, 0, 0, 0, 0],
        List.replicate 48 0, 3⟩ 1 = false :=
  ⟨⟨by decide,
    c9_is_active_requires_both_encodings
      ⟨2, [1, 0, 0, 0, 0, 0, 0, 0, 0, 0, 0, 0, 0, 0, 0, 0],
        List.replicate 48 0, 3⟩ 1 (by decide)⟩,
   by decide⟩

/-- Claim C10 (confirmed): `Layer::key` is total at the public interface:
with an out-of-range layer or an invalid address it returns the `Key_NoKey`
sentinel, and it reads the keymap table only when the layer is below
`NUM_LAYERS` and the address is valid, in which case the linear index is
below `NUM_KEYS`, i.e. inside the compiled table. -/
theorem c10_key_lookup_total (km : Keymap) (layer : Nat) (addr : KeyAddr) :
    (NUM_LAYERS ≤ layer ∨ addr.is_valid = false →
      Layer.key km layer addr = Key_NoKey) ∧
    (layer < NUM_LAYERS → addr.is_valid = true →
      Layer.key km layer addr = km layer addr.index ∧ addr.index < NUM_KEYS) := by
  constructor
  · intro h
    unfold Layer.key
    rcases h with h | h
    · simp [h]
    · simp [h]
  · intro h1 h2
    have hn : ¬ NUM_LAYERS ≤ layer := by omega
    have hidx : addr.index < NUM_KEYS := by
      simpa [KeyAddr.is_valid, KeyAddr.UPPER_LIMIT, NUM_KEYS] using h2
    refine ⟨?_, hidx⟩
    unfold Layer.key
    simp [hn, h2]

/-- Claim C10 witness: the guard evaluated at layer 3 (out of range) and at
layer 1 with the valid address 5. -/
theorem c10_key_lookup_total_witness :
    Layer.key (fun _ _ => Key_NoKey) 3 ⟨0⟩ = Key_NoKey ∧
    Layer.key (fun l i => ⟨l * 256 + i⟩) 1 ⟨5⟩ = ⟨261⟩ ∧ (5 : Nat) < NUM_KEYS :=
  ⟨(c10_key_lookup_total (fun _ _ => Key_NoKey) 3 ⟨0⟩).1 (Or.inl (by decide)),
   ((c10_key_lookup_total (fun l i => ⟨l * 256 + i⟩) 1 ⟨5⟩).2 (by decide) (by decide)).1,
   ((c10_key_lookup_total (fun l i => ⟨l * 256 + i⟩) 1 ⟨5⟩).2 (by decide) (by decide)).2⟩

theorem resolve_event_addr (km : Keymap) (st : RtState) (event : KeyEvent) :
    (Runtime.resolve_event km st event).addr = event.addr := by
  unfold Runtime.resolve_event
  split <;> rfl

theorem getD_set_ne (l : List Key) (j : Nat) (v : Key) (i : Nat) (h : i ≠ j) :
    (l.set j v).getD i Key_NoKey = l.getD i Key_NoKey := by
  induction l generalizing i j with
  | nil => rfl
  | cons a l ih =>
      cases j with
      | zero => cases i with
          | zero => exact absurd rfl h
          | succ i => rfl
      | succ j => cases i with
          | zero => rfl
          | succ i => exact ih j i (by omega)

theorem liveClear_getD_ne (lk : LiveKeys) (addr : KeyAddr) (i : Nat)
    (h : i ≠ addr.index) :
    (liveClear lk addr).getD i Key_NoKey = lk.getD i Key_NoKey := by
  unfold liveClear
  split
  · exact getD_set_ne lk addr.index Key_Inactive i h
  · rfl

theorem liveActivate_getD_ne (lk : LiveKeys) (addr : KeyAddr) (key : Key) (i : Nat)
    (h : i ≠ addr.index) :
    (liveActivate lk addr key).getD i Key_NoKey = lk.getD i Key_NoKey := by
  unfold liveActivate
  split
  · exact getD_set_ne lk addr.index key i h
  · rfl

theorem liveMask_getD_ne (lk : LiveKeys) (addr : KeyAddr) (i : Nat)
    (h : i ≠ addr.index) :
    (liveMask lk addr).getD i Key_NoKey = lk.getD i Key_NoKey := by
  unfold liveMask
  split
  · exact getD_set_ne lk addr.index Key_Masked i h
  · rfl

theorem liveUpdateForEvent_getD_ne (lk : LiveKeys) (ev : KeyEvent) (i : Nat)
    (h : i ≠ ev.addr.index) :
    (liveUpdateForEvent lk ev).getD i Key_NoKey = lk.getD i Key_NoKey := by
  unfold liveUpdateForEvent
  split
  · split
    · exact liveClear_getD_ne lk ev.addr i h
    · exact liveActivate_getD_ne lk ev.addr ev.key i h
  · rfl

theorem prepare_keyboard_report_live (hooks : Hooks) (st : RtState) (ev : KeyEvent) :
    (Runtime.prepare_keyboard_report hooks st ev).live_keys = st.live_keys := rfl

theorem send_keyboard_report_live (hooks : Hooks) (st : RtState) (ev : KeyEvent) :
    (Runtime.send_keyboard_report hooks st ev).live_keys = st.live_keys := by
  simp only [Runtime.send_keyboard_report]
  split_ifs <;> rfl

theorem handle_key_event_finish_live (hooks : Hooks) (st2 : RtState) (ev2 : KeyEvent) :
    (Runtime.handle_key_event_finish hooks st2 ev2).live_keys = st2.live_keys := by
  simp only [Runtime.handle_key_event_finish]
  split_ifs <;>
    first
      | rfl
      | rw [send_keyboard_report_live, prepare_keyboard_report_live]

set_option maxHeartbeats 1600000 in
theorem handle_layer_key_event_live (km : Keymap) (st : RtState) (ev : KeyEvent)
    (i : Nat) (hi : i ≠ ev.addr.index) :
    ∀ st2,
      (Runtime.handle_layer_key_event km st ev = RRes.ok st2 ∨
        Runtime.handle_layer_key_event km st ev = RRes.fail st2) →
      st2.live_keys.getD i Key_NoKey = st.live_keys.getD i Key_NoKey := by
  intro st2 h
  rcases h with h | h <;>
    (simp only [Runtime.handle_layer_key_event] at h
     repeat' split at h
     all_goals
       first
         | (injection h with h2
            subst h2
            first
              | rfl
              | exact liveMask_getD_ne _ _ _ hi
              | exact liveActivate_getD_ne _ _ _ _ hi)
         | simp at h)

theorem handle_key_event_tail_live (km : Keymap) (hooks : Hooks) (st1 : RtState)
    (ev2 : KeyEvent) (stf : RtState)
    (h : Runtime.handle_key_event_tail km hooks st1 ev2 = some stf)
    (i : Nat) (hi : i ≠ ev2.addr.index) :
    stf.live_keys.getD i Key_NoKey = st1.live_keys.getD i Key_NoKey := by
  unfold Runtime.handle_key_event_tail at h
  split at h
  · split at h
    · simp at h
    · rename_i st2 heq
      injection h with h2
      subst h2
      exact handle_layer_key_event_live km st1 ev2 i hi _ (Or.inr heq)
    · rename_i st2 heq
      injection h with h2
      subst h2
      rw [handle_key_event_finish_live]
      exact handle_layer_key_event_live km st1 ev2 i hi _ (Or.inl heq)
  · injection h with h2
    subst h2
    rw [handle_key_event_finish_live]

/-- Claim C2 (confirmed).  In `Runtime::handle_key_event`: when the
key-event hook chain returns Abort, the function returns with the entire
state — LiveKeys and HID reports included — unchanged, as if the event never
happened.  When the chain returns any other non-success result, the
resulting state is exactly the input state with LiveKeys fully updated for
the event (the address cleared on toggle-off, otherwise activated with the
resolved, possibly hook-rewritten key) and nothing else — in particular the
HID state is untouched, so no report is constructed.  And for every outcome
whatsoever, no LiveKeys entry other than the event's own address ever
changes, so LiveKeys is never left partially updated for an event. -/
theorem c2_hook_outcome_livekeys (km : Keymap) (hooks : Hooks) (st : RtState)
    (event : KeyEvent) :
    (ehIsAbort (hooks.on_key_event (Runtime.resolve_event km st event)).1 = true →
      Runtime.handle_key_event km hooks st event = some st) ∧
    (ehIsErr (hooks.on_key_event (Runtime.resolve_event km st event)).1 = true →
      ehIsAbort (hooks.on_key_event (Runtime.resolve_event km st event)).1 = false →
      Runtime.handle_key_event km hooks st event =
        some { st with live_keys :=
          liveUpdateForEvent st.live_keys (Runtime.hooked_event km hooks st event) }) ∧
    (∀ stf, Runtime.handle_key_event km hooks st event = some stf →
      ∀ i, i ≠ event.addr.index →
        stf.live_keys.getD i Key_NoKey = st.live_keys.getD i Key_NoKey) := by
  refine ⟨?_, ?_, ?_⟩
  · intro h
    simp [Runtime.handle_key_event, h]
  · intro herr hnab
    simp [Runtime.handle_key_event, hnab, herr]
  · intro stf h i hi
    have haddr : (Runtime.hooked_event km hooks st event).addr = event.addr :=
      resolve_event_addr km st event
    simp only [Runtime.handle_key_event] at h
    split at h
    · injection h with h2
      subst h2
      rfl
    · split at h
      · injection h with h2
        subst h2
        show (liveUpdateForEvent st.live_keys _).getD i Key_NoKey = _
        exact liveUpdateForEvent_getD_ne st.live_keys _ i (by rw [haddr]; exact hi)
      · have := handle_key_event_tail_live km hooks _ _ stf h i (by rw [haddr]; exact hi)
        rw [this]
        show (liveUpdateForEvent st.live_keys _).getD i Key_NoKey = _
        exact liveUpdateForEvent_getD_ne st.live_keys _ i (by rw [haddr]; exact hi)

/-- Claim C2 witness: the abort path at a concrete toggle-on event leaves
the initial state untouched; the unspecified-error path updates LiveKeys
for the event but nothing else. -/
theorem c2_hook_outcome_livekeys_witness :
    (ehIsAbort ((abortKeyEventHooks.on_key_event
        (Runtime.resolve_event (fun _ _ => ⟨4⟩) RtState.init
          ⟨⟨0⟩, ⟨false, true, false⟩, Key_Undefined⟩)).1) = true ∧
      Runtime.handle_key_event (fun _ _ => ⟨4⟩) abortKeyEventHooks RtState.init
        ⟨⟨0⟩, ⟨false, true, false⟩, Key_Undefined⟩ = some RtState.init) ∧
    Runtime.handle_key_event (fun _ _ => ⟨4⟩) errorKeyEventHooks RtState.init
        ⟨⟨0⟩, ⟨false, true, false⟩, Key_Undefined⟩ =
      some { RtState.init with
        live_keys := liveUpdateForEvent RtState.init.live_keys
          (Runtime.hooked_event (fun _ _ => ⟨4⟩) errorKeyEventHooks RtState.init
            ⟨⟨0⟩, ⟨false, true, false⟩, Key_Undefined⟩) } :=
  ⟨⟨by decide,
    (c2_hook_outcome_livekeys (fun _ _ => ⟨4⟩) abortKeyEventHooks RtState.init
      ⟨⟨0⟩, ⟨false, true, false⟩, Key_Undefined⟩).1 (by decide)⟩,
   (c2_hook_outcome_livekeys (fun _ _ => ⟨4⟩) errorKeyEventHooks RtState.init
      ⟨⟨0⟩, ⟨false, true, false⟩, Key_Undefined⟩).2.1 (by decide) (by decide)⟩

theorem getD_set_self (l : List Key) (i : Nat) (v : Key) (h : i < l.length) :
    (l.set i v).getD i Key_NoKey = v := by
  induction l generalizing i with
  | nil => simp at h
  | cons a l ih =>
      cases i with
      | zero => rfl
      | succ i => exact ih i (by simpa using h)

theorem addr_index_lt (addr : KeyAddr) (hv : addr.is_valid = true) :
    addr.index < 48 := by
  simpa [KeyAddr.is_valid, KeyAddr.UPPER_LIMIT] using hv

theorem liveGet_liveClear (lk : LiveKeys) (addr : KeyAddr)
    (hv : addr.is_valid = true) (hlen : lk.length = 48) :
    liveGet (liveClear lk addr) addr = Key_Inactive := by
  have hidx : addr.index < lk.length := by rw [hlen]; exact addr_index_lt addr hv
  simp only [liveGet, liveClear, hv, if_true]
  exact getD_set_self lk addr.index Key_Inactive hidx

theorem liveClear_liveClear (lk : LiveKeys) (addr : KeyAddr) :
    liveClear (liveClear lk addr) addr = liveClear lk addr := by
  unfold liveClear
  split
  · simp [List.set_set]
  · rfl

theorem handle_key_event_tail_nonlayer (km : Keymap) (hooks : Hooks) (st1 : RtState)
    (ev2 : KeyEvent) (h1 : ev2.key.is_layer_key = false)
    (h2 : ev2.key.is_mod_layer_key = false) :
    Runtime.handle_key_event_tail km hooks st1 ev2 =
      some (Runtime.handle_key_event_finish hooks st1 ev2) := by
  unfold Runtime.handle_key_event_tail
  rw [h1, h2]
  rfl

/-- Claim C7 (amended).  A toggle-off keyswitch event at a valid address
whose LiveKeys entry is `Key_Masked` makes `handle_keyswitch_event` clear
that entry and stop: the result is the input state with only that entry
cleared — so the HID state is untouched (no report) and the layer state
unchanged — and it is the same for every hook assignment, so neither the
keyswitch-event hooks nor `handle_key_event` can have been consulted; the
cleared entry reads back as `Key_Inactive`.  A second toggle-off at the
same address with no intervening toggle-on is NOT a no-op (see the
counterexample: it is processed as an ordinary release of the
keymap-resolved key, running the hook chains and transmitting a HID
report); what does hold, proved here with pass-through hooks for an
address resolving to a non-layer key (a layer key would trigger
layer-stack operations and can hit the defective layer code of C1/C3/C5),
is that the second toggle-off leaves LiveKeys unchanged: the clear is
idempotent and no logical key state changes. -/
theorem c7_masked_release_consumed (km : Keymap) (st : RtState) (event : KeyEvent)
    (hlen : st.live_keys.length = 48)
    (hv : event.addr.is_valid = true)
    (hoff : event.state.key_toggled_off = true)
    (hmask : liveGet st.live_keys event.addr = Key_Masked) :
    (∀ hooks : Hooks, Runtime.handle_keyswitch_event km hooks st event =
        some { st with live_keys := liveClear st.live_keys event.addr }) ∧
    liveGet (liveClear st.live_keys event.addr) event.addr = Key_Inactive ∧
    ((Runtime.lookup_key km { st with live_keys := liveClear st.live_keys event.addr }
        event.addr).is_layer_key = false →
      (Runtime.lookup_key km { st with live_keys := liveClear st.live_keys event.addr }
        event.addr).is_mod_layer_key = false →
      ∃ stf, Runtime.handle_keyswitch_event km okHooks
          { st with live_keys := liveClear st.live_keys event.addr } event = some stf ∧
        stf.live_keys = liveClear st.live_keys event.addr) := by
  refine ⟨?_, liveGet_liveClear st.live_keys event.addr hv hlen, ?_⟩
  · intro hooks
    simp [Runtime.handle_keyswitch_event, hv, hoff, hmask]
  · intro hl hml
    have hInactive : liveGet (liveClear st.live_keys event.addr) event.addr
        = Key_Inactive := liveGet_liveClear st.live_keys event.addr hv hlen
    have hne : (Key_Inactive == Key_Masked) = false := by decide
    have hfix : liveClear (liveClear st.live_keys event.addr) event.addr
        = liveClear st.live_keys event.addr := liveClear_liveClear st.live_keys event.addr
    simp only [Runtime.handle_keyswitch_event, hv, hoff, hInactive, hne,
      Bool.not_true, Bool.false_eq_true, if_false, Bool.true_or, Bool.or_true,
      Bool.true_and, Bool.and_false, Bool.false_and, if_true, Bool.not_false]
    simp only [okHooks, ehIsErr]
    simp only [Runtime.handle_key_event, Runtime.hooked_event, Runtime.resolve_event,
      hv, hoff, Bool.true_and, Bool.true_or, if_true, ehIsAbort, ehIsErr,
      Bool.false_or]
    simp only [liveUpdateForEvent, hv, hoff, if_true, hfix]
    simp only [Bool.false_eq_true, if_false]
    set k := Runtime.lookup_key km
      { st with live_keys := liveClear st.live_keys event.addr } event.addr with hk
    by_cases hc :
        (k == Key_Masked || k == Key_NoKey || k == Key_Undefined ||
          k == Key_Transparent) = true
    · rw [if_pos hc]
      exact ⟨_, rfl, rfl⟩
    · rw [if_neg hc]
      rw [handle_key_event_tail_nonlayer _ _ _ _ hl hml]
      exact ⟨_, rfl, by rw [handle_key_event_finish_live]⟩

/-- Claim C7 witness: a masked key at address 0 released on a fully masked
board — the release is consumed, only that entry is cleared, and it reads
back `Key_Inactive`. -/
theorem c7_masked_release_consumed_witness :
    Runtime.handle_keyswitch_event (fun _ _ => ⟨4⟩) okHooks
        ⟨List.replicate 48 Key_Masked, LayerState.new, ⟨[], [], [], 0, []⟩,
          KeyAddr.default⟩
        ⟨⟨0⟩, ⟨true, false, false⟩, Key_Undefined⟩ =
      some ⟨liveClear (List.replicate 48 Key_Masked) ⟨0⟩, LayerState.new,
        ⟨[], [], [], 0, []⟩, KeyAddr.default⟩ ∧
    liveGet (liveClear (List.replicate 48 Key_Masked) ⟨0⟩) ⟨0⟩ = Key_Inactive :=
  ⟨(c7_masked_release_consumed (fun _ _ => ⟨4⟩)
      ⟨List.replicate 48 Key_Masked, LayerState.new, ⟨[], [], [], 0, []⟩,
        KeyAddr.default⟩
      ⟨⟨0⟩, ⟨true, false, false⟩, Key_Undefined⟩
      (by decide) (by decide) (by decide) (by decide)).1 okHooks,
   (c7_masked_release_consumed (fun _ _ => ⟨4⟩)
      ⟨List.replicate 48 Key_Masked, LayerState.new, ⟨[], [], [], 0, []⟩,
        KeyAddr.default⟩
      ⟨⟨0⟩, ⟨true, false, false⟩, Key_Undefined⟩
      (by decide) (by decide) (by decide) (by decide)).2.1⟩

theorem hidPress_sent (h : HidState) (kc : Nat) : (hidPress h kc).sent = h.sent := by
  unfold hidPress
  split <;> rfl

theorem hidRelease_sent (h : HidState) (kc : Nat) : (hidRelease h kc).sent = h.sent := rfl

theorem hidPressModifiers_sent (h : HidState) (k : Key) :
    (hidPressModifiers h k).sent = h.sent := by
  simp only [hidPressModifiers]
  split_ifs <;> simp [hidPress_sent]

theorem hidReleaseModifiers_sent (h : HidState) (k : Key) :
    (hidReleaseModifiers h k).sent = h.sent := by
  simp only [hidReleaseModifiers]
  split_ifs <;> simp [hidRelease_sent]

theorem hidPressKey_sent (h : HidState) (k : Key) : (hidPressKey h k).sent = h.sent := by
  simp [hidPressKey, hidPress_sent, hidPressModifiers_sent]

theorem hidReleaseKey_sent (h : HidState) (k : Key) :
    (hidReleaseKey h k).sent = h.sent := by
  simp [hidReleaseKey, hidRelease_sent, hidReleaseModifiers_sent]

theorem hidPressConsumerControl_sent (h : HidState) (k : Key) :
    (hidPressConsumerControl h k).sent = h.sent := by
  unfold hidPressConsumerControl
  split <;> rfl

theorem hidPress_pressed_iff (h : HidState) (kc x : Nat) :
    x ∈ (hidPress h kc).pressed ↔ (x ∈ h.pressed ∨ x = kc) := by
  unfold hidPress
  split
  · rename_i hc
    constructor
    · exact Or.inl
    · rintro (hx | rfl)
      · exact hx
      · exact List.mem_of_elem_eq_true hc
  · simp

theorem hidPress_pressed_mem (h : HidState) (kc : Nat) :
    kc ∈ (hidPress h kc).pressed := by
  simp [hidPress_pressed_iff]

theorem hidPress_pressed_of_mem (h : HidState) (kc x : Nat) (hx : x ∈ h.pressed) :
    x ∈ (hidPress h kc).pressed := by
  simp [hidPress_pressed_iff, hx]

theorem hidRelease_not_mem (h : HidState) (kc : Nat) :
    kc ∉ (hidRelease h kc).pressed := by
  simp [hidRelease]

theorem hidReleaseKey_not_mem (h : HidState) (k : Key) :
    k.key_code ∉ (hidReleaseKey h k).pressed := hidRelease_not_mem _ _

theorem hidPressModifiers_pressed_of_mem (h : HidState) (k : Key) (x : Nat)
    (hx : x ∈ h.pressed) : x ∈ (hidPressModifiers h k).pressed := by
  simp only [hidPressModifiers]
  split_ifs <;> (try simp only [hidPress_pressed_iff]) <;> tauto

theorem hidPressModifiers_pressed_elim (h : HidState) (k : Key) (x : Nat)
    (hx : x ∈ (hidPressModifiers h k).pressed) :
    x ∈ h.pressed ∨ x = 225 ∨ x = 224 ∨ x = 226 ∨ x = 230 ∨ x = 227 := by
  simp only [hidPressModifiers,
    show Key_LeftShift.key_code = 225 from rfl,
    show Key_LeftControl.key_code = 224 from rfl,
    show Key_LeftAlt.key_code = 226 from rfl,
    show Key_RightAlt.key_code = 230 from rfl,
    show Key_LeftGui.key_code = 227 from rfl] at hx
  split_ifs at hx <;> (try simp only [hidPress_pressed_iff] at hx) <;> tauto

theorem hidPressModifiers_mods_mem (h : HidState) (k : Key) (m : Nat)
    (hm : m ∈ modifierCodesOf k.flags) : m ∈ (hidPressModifiers h k).pressed := by
  unfold modifierCodesOf at hm
  simp only [hidPressModifiers,
    show Key_LeftShift.key_code = 225 from rfl,
    show Key_LeftControl.key_code = 224 from rfl,
    show Key_LeftAlt.key_code = 226 from rfl,
    show Key_RightAlt.key_code = 230 from rfl,
    show Key_LeftGui.key_code = 227 from rfl]
  split_ifs at hm ⊢ <;>
    (try simp only [hidPress_pressed_iff]) <;>
    (try simp only [List.mem_append, List.mem_singleton, List.not_mem_nil] at hm) <;>
    tauto

theorem hidPressModifiers_not_mem (h : HidState) (k : Key) (kc : Nat)
    (hk : kc ∉ h.pressed) (hlt : kc < 224) :
    kc ∉ (hidPressModifiers h k).pressed := by
  intro hx
  rcases hidPressModifiers_pressed_elim h k kc hx with hx | hx | hx | hx | hx | hx
  · exact hk hx
  all_goals omega

theorem is_keyboard_not_mod_layer (k : Key) (h : k.is_keyboard_key = true) :
    k.is_mod_layer_key = false := by
  unfold Key.is_keyboard_key at h
  unfold Key.is_mod_layer_key
  simp only [SYNTHETIC, SWITCH_TO_KEYMAP, IS_INTERNAL, RESERVED, beq_iff_eq,
    beq_eq_false_iff_ne] at h ⊢
  intro heq
  rw [heq] at h
  simp at h

theorem set_flags_key_code (k : Key) (f : Nat) :
    (k.set_flags f).key_code = k.key_code := by
  show (f % 256 * 256 + k.raw % 256) % 256 = k.raw % 256
  omega

theorem add_to_report_sent (hooks : Hooks) (h : HidState) (k : Key) :
    (Runtime.add_to_report hooks h k).sent = h.sent := by
  simp only [Runtime.add_to_report]
  repeat' split
  all_goals
    first
      | rfl
      | rw [hidPressKey_sent]
      | rw [hidPressConsumerControl_sent]

theorem add_to_report_mem (hooks : Hooks) (h : HidState) (k : Key)
    (habort : ehIsAbort (hooks.on_add_to_report k) = false)
    (hkb : k.is_keyboard_key = true) :
    k.key_code ∈ (Runtime.add_to_report hooks h k).pressed := by
  have hml := is_keyboard_not_mod_layer k hkb
  unfold Runtime.add_to_report
  rw [if_neg (show ¬(ehIsAbort (hooks.on_add_to_report k) = true) by simp [habort])]
  rw [if_neg (show ¬(k.is_mod_layer_key = true) by simp [hml])]
  rw [if_pos hkb]
  unfold hidPressKey
  split
  · dsimp only
    rw [set_flags_key_code]
    exact hidPress_pressed_mem _ _
  · dsimp only
    exact hidPress_pressed_mem _ _

theorem not_pressed_not_mem (h : HidState) (k : Key)
    (hp : hidIsKeyPressed h k = false) : k.key_code ∉ h.pressed := by
  intro hm
  unfold hidIsKeyPressed at hp
  have h2 : h.pressed.contains k.key_code = true := List.elem_eq_true_of_mem hm
  rw [h2] at hp
  exact Bool.true_eq_false.mp hp

/-- Claim C6 (confirmed).  In `Runtime::send_keyboard_report`, for a
toggle-on event whose key is a plain keyboard key (keycode below the
modifier range) and whose hook chains do not abort: (a) if the keycode is
already pressed in the live report and the key carries no modifier flags,
exactly two reports are transmitted — an intermediate one without the
keycode (the release) followed by one containing it — rather than one;
(b) if the key carries non-zero modifier flags and the keycode is not
already pressed, an intermediate report carrying the flag modifiers but not
the keycode is transmitted before the report that adds the keycode; (c) if
both conditions hold, both intermediate reports precede the final one, in
the order release, modifiers, keycode.  So modifiers always reach the host
in a report preceding the keycode they apply to, and a same-keycode
rollover observably produces two transmitted reports. -/
theorem c6_send_keyboard_report_rollover (hooks : Hooks) (st : RtState)
    (event : KeyEvent)
    (hOn : event.state.key_toggled_on = true)
    (hKb : event.key.is_keyboard_key = true)
    (hkc : event.key.key_code < 224)
    (hadd : ehIsAbort (hooks.on_add_to_report event.key) = false)
    (hbrs : ehIsAbort (hooks.before_reporting_state event) = false) :
    (hidIsKeyPressed st.hid event.key = true → event.key.flags = 0 →
      ∃ r1 r2, (Runtime.send_keyboard_report hooks st event).hid.sent =
          st.hid.sent ++ [r1, r2] ∧
        event.key.key_code ∉ r1 ∧ event.key.key_code ∈ r2) ∧
    (hidIsKeyPressed st.hid event.key = false → event.key.flags ≠ 0 →
      ∃ r2 r3, (Runtime.send_keyboard_report hooks st event).hid.sent =
          st.hid.sent ++ [r2, r3] ∧
        (∀ m ∈ modifierCodesOf event.key.flags, m ∈ r2) ∧
        event.key.key_code ∉ r2 ∧ event.key.key_code ∈ r3) ∧
    (hidIsKeyPressed st.hid event.key = true → event.key.flags ≠ 0 →
      ∃ r1 r2 r3, (Runtime.send_keyboard_report hooks st event).hid.sent =
          st.hid.sent ++ [r1, r2, r3] ∧
        event.key.key_code ∉ r1 ∧
        (∀ m ∈ modifierCodesOf event.key.flags, m ∈ r2) ∧
        event.key.key_code ∉ r2 ∧ event.key.key_code ∈ r3) := by
  refine ⟨?_, ?_, ?_⟩
  · intro hp hf
    have hA : Runtime.send_keyboard_report hooks st event =
        { st with
          last_addr_toggled_on := event.addr
          hid := hidSendReport (Runtime.add_to_report hooks
            (hidSendReport (hidReleaseKey st.hid event.key)) event.key) } := by
      simp only [Runtime.send_keyboard_report, hOn, hKb, hp, hf, hbrs]
      simp
    rw [hA]
    refine ⟨(hidReleaseKey st.hid event.key).pressed,
      (Runtime.add_to_report hooks (hidSendReport (hidReleaseKey st.hid event.key))
        event.key).pressed, ?_, ?_, ?_⟩
    · simp [hidSendReport, add_to_report_sent, hidReleaseKey_sent]
    · exact hidReleaseKey_not_mem st.hid event.key
    · exact add_to_report_mem hooks _ event.key hadd hKb
  · intro hp hf
    have hB : Runtime.send_keyboard_report hooks st event =
        { st with
          last_addr_toggled_on := event.addr
          hid := hidSendReport (Runtime.add_to_report hooks
            (hidSendReport (hidPressModifiers st.hid event.key)) event.key) } := by
      simp only [Runtime.send_keyboard_report, hOn, hKb, hp, hf, hbrs]
      simp [hf]
    rw [hB]
    refine ⟨(hidPressModifiers st.hid event.key).pressed,
      (Runtime.add_to_report hooks (hidSendReport (hidPressModifiers st.hid event.key))
        event.key).pressed, ?_, ?_, ?_, ?_⟩
    · simp [hidSendReport, add_to_report_sent, hidPressModifiers_sent]
    · exact fun m hm => hidPressModifiers_mods_mem st.hid event.key m hm
    · exact hidPressModifiers_not_mem st.hid event.key event.key.key_code
        (not_pressed_not_mem st.hid event.key hp) hkc
    · exact add_to_report_mem hooks _ event.key hadd hKb
  · intro hp hf
    have hC : Runtime.send_keyboard_report hooks st event =
        { st with
          last_addr_toggled_on := event.addr
          hid := hidSendReport (Runtime.add_to_report hooks
            (hidSendReport (hidPressModifiers
              (hidSendReport (hidReleaseKey st.hid event.key)) event.key))
            event.key) } := by
      simp only [Runtime.send_keyboard_report, hOn, hKb, hp, hf, hbrs]
      simp [hf]
    rw [hC]
    refine ⟨(hidReleaseKey st.hid event.key).pressed,
      (hidPressModifiers (hidSendReport (hidReleaseKey st.hid event.key))
        event.key).pressed,
      (Runtime.add_to_report hooks
        (hidSendReport (hidPressModifiers
          (hidSendReport (hidReleaseKey st.hid event.key)) event.key))
        event.key).pressed, ?_, ?_, ?_, ?_, ?_⟩
    · simp [hidSendReport, add_to_report_sent, hidPressModifiers_sent,
        hidReleaseKey_sent]
    · exact hidReleaseKey_not_mem st.hid event.key
    · exact fun m hm => hidPressModifiers_mods_mem _ event.key m hm
    · exact hidPressModifiers_not_mem _ event.key event.key.key_code
        (hidReleaseKey_not_mem st.hid event.key) hkc
    · exact add_to_report_mem hooks _ event.key hadd hKb

/-- Claim C6 witness: pressing the shifted A key (raw 0x0104, keycode 4,
shift flag) while keycode 4 is already in the live report produces the
release report, the modifier report and the final report, in that order. -/
theorem c6_send_keyboard_report_rollover_witness :
    ∃ r1 r2 r3,
      (Runtime.send_keyboard_report okHooks
          ⟨List.replicate 48 Key_Inactive, LayerState.new, ⟨[4], [], [], 0, []⟩,
            KeyAddr.default⟩
          ⟨⟨0⟩, ⟨false, true, false⟩, ⟨260⟩⟩).hid.sent =
        [] ++ [r1, r2, r3] ∧
      (4 : Nat) ∉ r1 ∧
      (∀ m ∈ modifierCodesOf 1, m ∈ r2) ∧
      (4 : Nat) ∉ r2 ∧ (4 : Nat) ∈ r3 :=
  (c6_send_keyboard_report_rollover okHooks
    ⟨List.replicate 48 Key_Inactive, LayerState.new, ⟨[4], [], [], 0, []⟩,
      KeyAddr.default⟩
    ⟨⟨0⟩, ⟨false, true, false⟩, ⟨260⟩⟩
    (by decide) (by decide) (by decide) (by decide) (by decide)).2.2
    (by decide) (by decide)

/-- Claim C7 counterexample: the second toggle-off is not a no-op.  On a
fully masked board with every keymap entry the plain key 4, releasing the
masked address 0 clears it silently (first conjunct, state otherwise
untouched); but a second toggle-off of address 0 is processed as an
ordinary release of the keymap-resolved key: the pipeline rebuilds and
transmits a keyboard report (the transmitted-report log grows by one
report — empty, as no other key is live), so the resulting state differs
from the state the second release started in. -/
theorem c7_second_release_not_noop_counterexample :
    Runtime.handle_keyswitch_event (fun _ _ => ⟨4⟩) okHooks
        ⟨List.replicate 48 Key_Masked, LayerState.new, ⟨[], [], [], 0, []⟩,
          KeyAddr.default⟩
        ⟨⟨0⟩, ⟨true, false, false⟩, Key_Undefined⟩ =
      some ⟨liveClear (List.replicate 48 Key_Masked) ⟨0⟩, LayerState.new,
        ⟨[], [], [], 0, []⟩, KeyAddr.default⟩ ∧
    Runtime.handle_keyswitch_event (fun _ _ => ⟨4⟩) okHooks
        ⟨liveClear (List.replicate 48 Key_Masked) ⟨0⟩, LayerState.new,
          ⟨[], [], [], 0, []⟩, KeyAddr.default⟩
        ⟨⟨0⟩, ⟨true, false, false⟩, Key_Undefined⟩ =
      some ⟨liveClear (List.replicate 48 Key_Masked) ⟨0⟩, LayerState.new,
        ⟨[], [], [], 0, [[]]⟩, KeyAddr.default⟩ ∧
    (⟨liveClear (List.replicate 48 Key_Masked) ⟨0⟩, LayerState.new,
        ⟨[], [], [], 0, [[]]⟩, KeyAddr.default⟩ : RtState) ≠
      ⟨liveClear (List.replicate 48 Key_Masked) ⟨0⟩, LayerState.new,
        ⟨[], [], [], 0, []⟩, KeyAddr.default⟩ :=
  ⟨by decide, by decide, by decide⟩

end Kaleidoscope
